import Mathlib

/-!
Shallow embedding of the contract versioning and migration engine from
`contracts/shared/src/versioning.rs` (the `VersionManager` struct and its
helper functions).

Modelling choices:
* The four reserved storage keys (`CONTRACT_VERSION`, `CONTRACT_VERSION_HISTORY`,
  `MIGRATION_STATE`, `LAST_MIGRATION_TIME`) become the four `Option`-valued
  fields of `Store`; `get` on an absent key is `none`, `set` is a record update.
* `u32`/`u64` values are modelled as `Nat`: the code performs no arithmetic on
  versions or timestamps (only comparisons and stores), so no wrap-around can
  occur.
* `Address` is modelled as `Nat` (an opaque identifier), the Soroban `String`
  as a Lean `String`.
* `env.ledger().timestamp()` becomes an explicit `now : Nat` parameter; within
  one call all reads of the clock yield the same value, as on the host.
* Fallible operations return `Except VersioningError α × Store`: the first
  component is the Rust `Result`, the second the storage contents after the
  call (errors returned early leave the store as it was; writes performed
  before a later error persist, exactly as in the source, where the library
  function returns `Err` without reverting its own `set` calls).
* The migration hook `F: Fn(&Env) -> Result<(), VersioningError>` becomes a
  function `Store → Except VersioningError Unit`; its writes go to domain keys
  outside the four reserved versioning keys (the reserved keys must not collide
  with domain keys), so they are invisible in `Store`.
* `admin.require_auth()` aborts the whole transaction when unauthorized, so the
  embedding models the authorized executions of `reset_migration_state`.
-/

namespace Versioning

/-- Versioning and migration-related errors (`VersioningError` in the source). -/
inductive VersioningError where
  | NotInitialized
  | VersionMismatch
  | MigrationInProgress
  | MigrationFailed
  | UnauthorizedUpgrade
  | InvalidVersionNumber
  | MigrationHookFailed
  | SchemaValidationFailed
  | RollbackFailed
deriving DecidableEq, Repr

/-- State of a migration (`MigrationState` in the source), stored on chain as a u32 code. -/
inductive MigrationState where
  | None
  | InProgress
  | Complete
  | RollbackRequired
deriving DecidableEq, Repr

/-- Converts a MigrationState enum value to its u32 representation
(`migration_state_to_u32`; the Rust `state as u32` uses the declared
discriminants None=0, InProgress=1, Complete=2, RollbackRequired=3). -/
def migration_state_to_u32 : MigrationState → Nat
  | .None => 0
  | .InProgress => 1
  | .Complete => 2
  | .RollbackRequired => 3

/-- Converts a u32 value back to a MigrationState enum (`u32_to_migration_state`). -/
def u32_to_migration_state (value : Nat) : Except VersioningError MigrationState :=
  match value with
  | 0 => .ok .None
  | 1 => .ok .InProgress
  | 2 => .ok .Complete
  | 3 => .ok .RollbackRequired
  | _ => .error .InvalidVersionNumber

/-- A single version transition in the migration history (`VersionTransition`). -/
structure VersionTransition where
  from_version : Nat
  to_version : Nat
  migrated_by : Nat
  migration_timestamp : Nat
  success : Bool
  message : String
deriving DecidableEq, Repr

/-- Maximum number of versions in history to track (`MAX_VERSION_HISTORY`). -/
def MAX_VERSION_HISTORY : Nat := 100

/-- Contents of the four reserved versioning storage keys.  A `none` field means
the key is absent from storage.  The history list is most-recent-first, as the
source prepends with `push_front` and evicts with `pop_back`. -/
structure Store where
  version : Option Nat
  history : Option (List VersionTransition)
  migState : Option Nat
  lastMigTime : Option Nat
deriving DecidableEq, Repr

/-- VersionManager::initialize: rejects re-initialization and a zero version,
otherwise persists the version, an empty history, migration state None and the
current ledger timestamp.  (Named `initContract` because `initialize` is a Lean
keyword.) -/
def initContract (s : Store) (now : Nat) (initial_version : Nat) :
    Except VersioningError Unit × Store :=
  if s.version.isSome then
    (.error .NotInitialized, s)
  else if initial_version = 0 then
    (.error .InvalidVersionNumber, s)
  else
    (.ok (), { s with
      version := some initial_version,
      history := some [],
      migState := some (migration_state_to_u32 .None),
      lastMigTime := some now })

/-- VersionManager::current_version: the stored version, or NotInitialized. -/
def current_version (s : Store) : Except VersioningError Nat :=
  match s.version with
  | some v => .ok v
  | none => .error .NotInitialized

/-- VersionManager::version_history: the stored transition list, or NotInitialized. -/
def version_history (s : Store) : Except VersioningError (List VersionTransition) :=
  match s.history with
  | some h => .ok h
  | none => .error .NotInitialized

/-- VersionManager::ensure_compatible: blocks on InProgress, then on
RollbackRequired, then requires the stored version to equal the expected one.
The migration-state read uses `unwrap_or(0)`, hence `Option.getD 0`.  The
source performs no storage writes, so the returned store is the input store. -/
def ensure_compatible (s : Store) (expected_version : Nat) :
    Except VersioningError Unit × Store :=
  let migration_state := s.migState.getD 0
  if migration_state = migration_state_to_u32 .InProgress then
    (.error .MigrationInProgress, s)
  else if migration_state = migration_state_to_u32 .RollbackRequired then
    (.error .RollbackFailed, s)
  else
    match current_version s with
    | .error e => (.error e, s)
    | .ok current =>
      if current ≠ expected_version then (.error .VersionMismatch, s)
      else (.ok (), s)

/-- VersionManager::validate_version_upgrade: the new version must be strictly higher. -/
def validate_version_upgrade (current new_version : Nat) :
    Except VersioningError Unit :=
  if new_version ≤ current then .error .InvalidVersionNumber else .ok ()

/-- VersionManager::migrate: validates the upgrade path, the stored version and
the migration state, durably sets InProgress, runs the hook (on failure:
RollbackRequired, propagate the hook error), then updates the version, prepends
a history entry (evicting from the tail down to `MAX_VERSION_HISTORY - 1`
entries first when the list is at or over the cap), stamps the migration time
and sets Complete. -/
def migrate (s : Store) (now : Nat) (from_version to_version : Nat)
    (migrator : Nat) (hook : Store → Except VersioningError Unit) :
    Except VersioningError Unit × Store :=
  match validate_version_upgrade from_version to_version with
  | .error e => (.error e, s)
  | .ok _ =>
    match current_version s with
    | .error e => (.error e, s)
    | .ok current =>
      if current ≠ from_version then
        (.error .VersionMismatch, s)
      else
        let migration_state := s.migState.getD 0
        if migration_state = migration_state_to_u32 .InProgress then
          (.error .MigrationInProgress, s)
        else
          let s1 : Store := { s with migState := some (migration_state_to_u32 .InProgress) }
          match hook s1 with
          | .error e =>
            (.error e, { s1 with migState := some (migration_state_to_u32 .RollbackRequired) })
          | .ok _ =>
            let s2 : Store := { s1 with version := some to_version }
            match version_history s2 with
            | .error e => (.error e, s2)
            | .ok history =>
              let transition : VersionTransition :=
                { from_version := from_version
                  to_version := to_version
                  migrated_by := migrator
                  migration_timestamp := now
                  success := true
                  message := "Migration successful" }
              let trimmed :=
                if MAX_VERSION_HISTORY ≤ history.length then
                  history.take (MAX_VERSION_HISTORY - 1)
                else history
              let s3 : Store := { s2 with history := some (transition :: trimmed) }
              let s4 : Store := { s3 with lastMigTime := some now }
              let s5 : Store := { s4 with migState := some (migration_state_to_u32 .Complete) }
              (.ok (), s5)

/-- VersionManager::reset_migration_state: after `admin.require_auth()`,
unconditionally writes migration state None.  Only the authorized executions
are modelled (an unauthorized call aborts the transaction with no writes). -/
def reset_migration_state (s : Store) (admin : Nat) :
    Except VersioningError Unit × Store :=
  (.ok (), { s with migState := some (migration_state_to_u32 .None) })

/-- One call to the versioning engine, for reasoning about arbitrary operation
sequences.  Each constructor carries the caller-chosen arguments (and the
ledger timestamp at which the call runs). -/
inductive Op where
  | opInit (now iv : Nat)
  | opMigrate (now from_version to_version migrator : Nat)
      (hook : Store → Except VersioningError Unit)
  | opReset (admin : Nat)
  | opEnsure (expected_version : Nat)

/-- Storage contents after one engine call (whether it succeeded or failed). -/
def applyOp (s : Store) (op : Op) : Store :=
  match op with
  | .opInit now iv => (initContract s now iv).2
  | .opMigrate now f t m hook => (migrate s now f t m hook).2
  | .opReset a => (reset_migration_state s a).2
  | .opEnsure v => (ensure_compatible s v).2

/-! Helper lemmas: branch-by-branch characterization of the operations. -/

lemma ensure_snd (s : Store) (v : Nat) : (ensure_compatible s v).2 = s := by
  rcases s with ⟨ver, hist, ms, lt⟩
  cases ver <;> cases ms <;>
    simp [ensure_compatible, current_version, migration_state_to_u32] <;>
    split_ifs <;> rfl

lemma migrate_not_greater (s : Store) (now f t m : Nat)
    (hook : Store → Except VersioningError Unit) (h : t ≤ f) :
    migrate s now f t m hook = (.error .InvalidVersionNumber, s) := by
  simp [migrate, validate_version_upgrade, h]

lemma migrate_uninit (s : Store) (now f t m : Nat)
    (hook : Store → Except VersioningError Unit) (h : f < t) (hv : s.version = none) :
    migrate s now f t m hook = (.error .NotInitialized, s) := by
  have h' : ¬ t ≤ f := not_le.mpr h
  simp [migrate, validate_version_upgrade, current_version, h', hv]

lemma migrate_mismatch (s : Store) (now f t m : Nat)
    (hook : Store → Except VersioningError Unit) (cv : Nat)
    (h : f < t) (hv : s.version = some cv) (hne : cv ≠ f) :
    migrate s now f t m hook = (.error .VersionMismatch, s) := by
  have h' : ¬ t ≤ f := not_le.mpr h
  simp [migrate, validate_version_upgrade, current_version, h', hv, hne]

lemma migrate_busy (s : Store) (now f t m : Nat)
    (hook : Store → Except VersioningError Unit)
    (h : f < t) (hv : s.version = some f) (hms : s.migState.getD 0 = 1) :
    migrate s now f t m hook = (.error .MigrationInProgress, s) := by
  have h' : ¬ t ≤ f := not_le.mpr h
  simp [migrate, validate_version_upgrade, current_version, migration_state_to_u32,
    h', hv, hms]

lemma migrate_hook_err (s : Store) (now f t m : Nat)
    (hook : Store → Except VersioningError Unit) (e : VersioningError)
    (h : f < t) (hv : s.version = some f) (hms : s.migState.getD 0 ≠ 1)
    (hh : hook { s with migState := some 1 } = .error e) :
    migrate s now f t m hook = (.error e, { s with migState := some 3 }) := by
  have h' : ¬ t ≤ f := not_le.mpr h
  rw [show ({ s with migState := some 1 } : Store) =
    { version := some f, history := s.history, migState := some 1,
      lastMigTime := s.lastMigTime } by rw [← hv]] at hh
  simp [migrate, validate_version_upgrade, current_version, migration_state_to_u32,
    h', hv, hms, hh]

lemma migrate_ok_full (s : Store) (now f t m : Nat)
    (hook : Store → Except VersioningError Unit) (h0 : List VersionTransition)
    (h : f < t) (hv : s.version = some f) (hms : s.migState.getD 0 ≠ 1)
    (hh : hook { s with migState := some 1 } = .ok ())
    (hhist : s.history = some h0) :
    migrate s now f t m hook =
      (.ok (), { s with
        version := some t,
        history := some
          ({ from_version := f, to_version := t, migrated_by := m,
             migration_timestamp := now, success := true,
             message := "Migration successful" } ::
           (if MAX_VERSION_HISTORY ≤ h0.length then h0.take (MAX_VERSION_HISTORY - 1)
            else h0)),
        migState := some 2,
        lastMigTime := some now }) := by
  have h' : ¬ t ≤ f := not_le.mpr h
  rw [show ({ s with migState := some 1 } : Store) =
    { version := some f, history := some h0, migState := some 1,
      lastMigTime := s.lastMigTime } by rw [← hv, ← hhist]] at hh
  simp [migrate, validate_version_upgrade, current_version, version_history,
    migration_state_to_u32, h', hv, hms, hh, hhist]

lemma migrate_ok_no_hist (s : Store) (now f t m : Nat)
    (hook : Store → Except VersioningError Unit)
    (h : f < t) (hv : s.version = some f) (hms : s.migState.getD 0 ≠ 1)
    (hh : hook { s with migState := some 1 } = .ok ()) (hhist : s.history = none) :
    migrate s now f t m hook =
      (.error .NotInitialized, { s with version := some t, migState := some 1 }) := by
  have h' : ¬ t ≤ f := not_le.mpr h
  rw [show ({ s with migState := some 1 } : Store) =
    { version := some f, history := none, migState := some 1,
      lastMigTime := s.lastMigTime } by rw [← hv, ← hhist]] at hh
  simp [migrate, validate_version_upgrade, current_version, version_history,
    migration_state_to_u32, h', hv, hms, hh, hhist]

lemma migrate_ok_inv (s : Store) (now f t m : Nat)
    (hook : Store → Except VersioningError Unit) (s' : Store)
    (hok : migrate s now f t m hook = (.ok (), s')) :
    f < t ∧ s.version = some f ∧ s'.version = some t := by
  by_cases h1 : t ≤ f
  · rw [migrate_not_greater s now f t m hook h1] at hok
    simp at hok
  push_neg at h1
  rcases hver : s.version with _ | cv
  · rw [migrate_uninit s now f t m hook h1 hver] at hok
    simp at hok
  by_cases h2 : cv = f
  case neg =>
    rw [migrate_mismatch s now f t m hook cv h1 hver h2] at hok
    simp at hok
  rw [h2] at hver
  by_cases h3 : s.migState.getD 0 = 1
  · rw [migrate_busy s now f t m hook h1 hver h3] at hok
    simp at hok
  rcases hh : hook { s with migState := some 1 } with e | u
  · rw [migrate_hook_err s now f t m hook e h1 hver h3 hh] at hok
    simp at hok
  cases u
  rcases hhist : s.history with _ | h0
  · rw [migrate_ok_no_hist s now f t m hook h1 hver h3 hh hhist] at hok
    simp at hok
  rw [migrate_ok_full s now f t m hook h0 h1 hver h3 hh hhist] at hok
  rw [Prod.mk.injEq] at hok
  obtain ⟨-, hok2⟩ := hok
  refine ⟨h1, by rw [h2], ?_⟩
  rw [← hok2]

lemma applyOp_version_mono (s : Store) (op : Op) (v : Nat) (hv : s.version = some v) :
    ∃ w, (applyOp s op).version = some w ∧ v ≤ w := by
  cases op with
  | opInit now iv =>
    have hs : s.version.isSome = true := by rw [hv]; rfl
    simp only [applyOp, initContract, hs, if_true]
    exact ⟨v, hv, le_rfl⟩
  | opReset a =>
    exact ⟨v, hv, le_rfl⟩
  | opEnsure ev =>
    have hs : applyOp s (Op.opEnsure ev) = s := ensure_snd s ev
    rw [hs]
    exact ⟨v, hv, le_rfl⟩
  | opMigrate now f t m hook =>
    simp only [applyOp]
    by_cases h1 : t ≤ f
    · rw [migrate_not_greater s now f t m hook h1]
      exact ⟨v, hv, le_rfl⟩
    push_neg at h1
    by_cases h2 : v = f
    case neg =>
      rw [migrate_mismatch s now f t m hook v h1 hv h2]
      exact ⟨v, hv, le_rfl⟩
    have hvf : s.version = some f := by rw [← h2]; exact hv
    by_cases h3 : s.migState.getD 0 = 1
    · rw [migrate_busy s now f t m hook h1 hvf h3]
      exact ⟨v, hv, le_rfl⟩
    rcases hh : hook { s with migState := some 1 } with e | u
    · rw [migrate_hook_err s now f t m hook e h1 hvf h3 hh]
      exact ⟨v, hv, le_rfl⟩
    cases u
    rcases hhist : s.history with _ | h0
    · rw [migrate_ok_no_hist s now f t m hook h1 hvf h3 hh hhist]
      exact ⟨t, rfl, by omega⟩
    · rw [migrate_ok_full s now f t m hook h0 h1 hvf h3 hh hhist]
      exact ⟨t, rfl, by omega⟩

lemma foldl_version_mono (ops : List Op) :
    ∀ s v, s.version = some v →
      ∃ w, (List.foldl applyOp s ops).version = some w ∧ v ≤ w := by
  induction ops with
  | nil => exact fun s v hv => ⟨v, hv, le_rfl⟩
  | cons op rest ih =>
    intro s v hv
    obtain ⟨w, hw, hvw⟩ := applyOp_version_mono s op v hv
    obtain ⟨u, hu, hwu⟩ := ih (applyOp s op) w hw
    exact ⟨u, by simpa using hu, le_trans hvw hwu⟩

/-- States whose history key, when present, holds at most `MAX_VERSION_HISTORY` entries. -/
def HistBound (s : Store) : Prop :=
  ∀ h, s.history = some h → h.length ≤ MAX_VERSION_HISTORY

lemma applyOp_hist_bound (s : Store) (op : Op) (hb : HistBound s) :
    HistBound (applyOp s op) := by
  cases op with
  | opInit now iv =>
    intro h hh
    simp only [applyOp, initContract] at hh
    split_ifs at hh
    · exact hb h hh
    · exact hb h hh
    · simp only [Option.some.injEq] at hh
      subst hh
      exact Nat.zero_le _
  | opReset a =>
    intro h hh
    exact hb h hh
  | opEnsure ev =>
    intro h hh
    simp only [applyOp, ensure_snd] at hh
    exact hb h hh
  | opMigrate now f t m hook =>
    simp only [applyOp]
    by_cases h1 : t ≤ f
    · rw [migrate_not_greater s now f t m hook h1]; exact hb
    push_neg at h1
    rcases hver : s.version with _ | cv
    · rw [migrate_uninit s now f t m hook h1 hver]; exact hb
    by_cases h2 : cv = f
    case neg =>
      rw [migrate_mismatch s now f t m hook cv h1 hver h2]; exact hb
    rw [h2] at hver
    by_cases h3 : s.migState.getD 0 = 1
    · rw [migrate_busy s now f t m hook h1 hver h3]; exact hb
    rcases hh : hook { s with migState := some 1 } with e | u
    · rw [migrate_hook_err s now f t m hook e h1 hver h3 hh]
      intro h hmem
      exact hb h hmem
    cases u
    rcases hhist : s.history with _ | h0
    · rw [migrate_ok_no_hist s now f t m hook h1 hver h3 hh hhist]
      intro h hmem
      rw [hhist] at hmem
      simp at hmem
    · rw [migrate_ok_full s now f t m hook h0 h1 hver h3 hh hhist]
      intro h hmem
      simp only [Option.some.injEq] at hmem
      subst hmem
      by_cases h4 : MAX_VERSION_HISTORY ≤ h0.length
      · simp only [h4, if_true, List.length_cons, List.length_take]
        have h4' : MAX_VERSION_HISTORY ≤ h0.length := h4
        simp only [MAX_VERSION_HISTORY] at h4' ⊢
        omega
      · simp only [h4, if_false, List.length_cons]
        have := hb h0 hhist
        omega

lemma foldl_hist_bound (ops : List Op) :
    ∀ s, HistBound s → HistBound (List.foldl applyOp s ops) := by
  induction ops with
  | nil => exact fun s hb => hb
  | cons op rest ih =>
    intro s hb
    have := ih (applyOp s op) (applyOp_hist_bound s op hb)
    simpa using this

/-- The history entry a successful migration records: from f to t, authorized
by m, at ledger time now, success flag true, the default message. -/
def mkTransition (f t m now : Nat) : VersionTransition :=
  { from_version := f, to_version := t, migrated_by := m,
    migration_timestamp := now, success := true,
    message := "Migration successful" }

/-- The history-bound scenario: 101 successive successful upgrades
1→2, 2→3, …, 101→102, each with a succeeding hook, at ledger time 0. -/
def migChain : List Op :=
  (List.range 101).map (fun i => Op.opMigrate 0 (i + 1) (i + 2) 0 (fun _ => .ok ()))

/-- Storage contents after initializing at version 1 and running `migChain`. -/
def chainStore : Store :=
  List.foldl applyOp (initContract ⟨none, none, none, none⟩ 0 1).2 migChain

/-- The 100 most recent transitions of the scenario, most-recent-first:
101→102 down to 2→3 (the transition 1→2 has been evicted). -/
def chainHistory : List VersionTransition :=
  (List.range 100).map (fun i => mkTransition (101 - i) (102 - i) 0 0)

/-! Claim theorems. -/

/-- Claim C1: a migrate whose hook fails (with the stored version equal to
from_version, to_version greater, and migration state not InProgress) returns
the hook's error, leaves the version record, the history list and the
last-migration time unchanged, changes only the migration-state field to
RollbackRequired, and afterwards ensure_compatible for the old version fails
with RollbackFailed. -/
theorem migrate_fail_closed (s : Store) (now f t m : Nat)
    (hook : Store → Except VersioningError Unit) (e : VersioningError)
    (hv : s.version = some f) (hft : f < t)
    (hms : s.migState.getD 0 ≠ migration_state_to_u32 MigrationState.InProgress)
    (hh : hook { s with migState := some (migration_state_to_u32 MigrationState.InProgress) } =
      .error e) :
    migrate s now f t m hook =
      (.error e, { s with migState := some (migration_state_to_u32 MigrationState.RollbackRequired) }) ∧
    (migrate s now f t m hook).2.version = s.version ∧
    (migrate s now f t m hook).2.history = s.history ∧
    (migrate s now f t m hook).2.lastMigTime = s.lastMigTime ∧
    (ensure_compatible (migrate s now f t m hook).2 f).1 = .error .RollbackFailed := by
  have hmig := migrate_hook_err s now f t m hook e hft hv hms hh
  refine ⟨hmig, by rw [hmig], by rw [hmig], by rw [hmig], ?_⟩
  rw [hmig]
  simp [ensure_compatible, migration_state_to_u32]

/-- Witness for C1: a concrete failing-hook migration from version 1 to 2. -/
theorem migrate_fail_closed_witness :
    migrate ⟨some 1, some [], some 0, some 0⟩ 5 1 2 7
        (fun _ => Except.error VersioningError.MigrationHookFailed) =
      (Except.error VersioningError.MigrationHookFailed,
        ⟨some 1, some [], some 3, some 0⟩) :=
  (migrate_fail_closed ⟨some 1, some [], some 0, some 0⟩ 5 1 2 7
    (fun _ => Except.error VersioningError.MigrationHookFailed)
    VersioningError.MigrationHookFailed rfl (by decide) (by decide) rfl).1

/-- Claim C2 (counterexample): from an initialized state whose migration state
is RollbackRequired, a migrate with matching versions and a succeeding hook
does succeed, moves the migration state to Complete, and afterwards
ensure_compatible for the new version succeeds — so an admin reset is not the
only operation that leaves RollbackRequired. -/
theorem rollback_exit_counterexample :
    (migrate ⟨some 1, some [], some 3, some 0⟩ 0 1 2 0 (fun _ => Except.ok ())).1 =
      Except.ok () ∧
    (migrate ⟨some 1, some [], some 3, some 0⟩ 0 1 2 0 (fun _ => Except.ok ())).2.migState =
      some (migration_state_to_u32 MigrationState.Complete) ∧
    (ensure_compatible
      (migrate ⟨some 1, some [], some 3, some 0⟩ 0 1 2 0 (fun _ => Except.ok ())).2 2).1 =
      Except.ok () :=
  ⟨rfl, rfl, rfl⟩

/-- Claim C2 (amended): from RollbackRequired, ensure_compatible always fails
with RollbackFailed and re-initialization changes nothing; a migrate that fails
a precondition leaves the state unchanged and a migrate whose hook fails leaves
it at RollbackRequired; reset_migration_state sets the state to None; but a
migrate whose preconditions hold and whose hook succeeds also leaves
RollbackRequired, succeeding and moving the state to Complete. -/
theorem rollback_state_amended :
    (∀ s a, (reset_migration_state s a).2.migState =
      some (migration_state_to_u32 MigrationState.None)) ∧
    (∀ s v, s.migState = some (migration_state_to_u32 MigrationState.RollbackRequired) →
      ensure_compatible s v = (.error .RollbackFailed, s)) ∧
    (∀ s now iv v, s.version = some v →
      initContract s now iv = (.error .NotInitialized, s)) ∧
    (∀ s now f t m hook,
      s.migState = some (migration_state_to_u32 MigrationState.RollbackRequired) →
      (t ≤ f → (migrate s now f t m hook).2 = s) ∧
      (s.version = none → (migrate s now f t m hook).2 = s) ∧
      (∀ cv, s.version = some cv → cv ≠ f → (migrate s now f t m hook).2 = s) ∧
      (∀ e, f < t → s.version = some f →
        hook { s with migState := some (migration_state_to_u32 MigrationState.InProgress) } =
          .error e →
        (migrate s now f t m hook).2.migState =
          some (migration_state_to_u32 MigrationState.RollbackRequired)) ∧
      (∀ h0, f < t → s.version = some f →
        hook { s with migState := some (migration_state_to_u32 MigrationState.InProgress) } =
          .ok () →
        s.history = some h0 →
        (migrate s now f t m hook).1 = .ok () ∧
        (migrate s now f t m hook).2.migState =
          some (migration_state_to_u32 MigrationState.Complete))) := by
  refine ⟨fun s a => rfl, ?_, ?_, ?_⟩
  · intro s v hms
    simp [ensure_compatible, hms, migration_state_to_u32]
  · intro s now iv v hv
    have hs : s.version.isSome = true := by rw [hv]; rfl
    simp [initContract, hs]
  · intro s now f t m hook hms
    have hne1 : s.migState.getD 0 ≠ 1 := by rw [hms]; decide
    refine ⟨?_, ?_, ?_, ?_, ?_⟩
    · intro hle
      rw [migrate_not_greater s now f t m hook hle]
    · intro hv
      by_cases hlt : t ≤ f
      · rw [migrate_not_greater s now f t m hook hlt]
      · push_neg at hlt
        rw [migrate_uninit s now f t m hook hlt hv]
    · intro cv hv hne
      by_cases hlt : t ≤ f
      · rw [migrate_not_greater s now f t m hook hlt]
      · push_neg at hlt
        rw [migrate_mismatch s now f t m hook cv hlt hv hne]
    · intro e hft hv hh
      rw [migrate_hook_err s now f t m hook e hft hv hne1 hh]
      rfl
    · intro h0 hft hv hh hhist
      rw [migrate_ok_full s now f t m hook h0 hft hv hne1 hh hhist]
      exact ⟨rfl, rfl⟩

/-- Witness for the amended C2: concrete RollbackRequired state where the
freeze blocks ensure_compatible and reset clears the state. -/
theorem rollback_state_amended_witness :
    ensure_compatible ⟨some 1, some [], some 3, some 0⟩ 1 =
      (Except.error VersioningError.RollbackFailed, ⟨some 1, some [], some 3, some 0⟩) ∧
    (migrate ⟨some 1, some [], some 3, some 0⟩ 0 1 1 0 (fun _ => Except.ok ())).2 =
      ⟨some 1, some [], some 3, some 0⟩ :=
  ⟨rollback_state_amended.2.1 ⟨some 1, some [], some 3, some 0⟩ 1 rfl,
   (rollback_state_amended.2.2.2 ⟨some 1, some [], some 3, some 0⟩ 0 1 1 0
      (fun _ => Except.ok ()) rfl).1 (by decide)⟩

/-- Claim C3: ensure_compatible checks in order — MigrationInProgress when the
stored migration state is InProgress, else RollbackFailed when it is
RollbackRequired (both for every expected version), else NotInitialized when
no version record exists, else VersionMismatch when the stored version differs
from the expected one, else success — and it never writes to storage; steady
repeated calls at the stored version succeed with the state unchanged. -/
theorem ensure_compatible_spec :
    (∀ s v, (ensure_compatible s v).2 = s) ∧
    (∀ s v, s.migState.getD 0 = migration_state_to_u32 MigrationState.InProgress →
      (ensure_compatible s v).1 = .error .MigrationInProgress) ∧
    (∀ s v, s.migState.getD 0 = migration_state_to_u32 MigrationState.RollbackRequired →
      (ensure_compatible s v).1 = .error .RollbackFailed) ∧
    (∀ s v, s.migState.getD 0 ≠ migration_state_to_u32 MigrationState.InProgress →
      s.migState.getD 0 ≠ migration_state_to_u32 MigrationState.RollbackRequired →
      s.version = none → (ensure_compatible s v).1 = .error .NotInitialized) ∧
    (∀ s v cv, s.migState.getD 0 ≠ migration_state_to_u32 MigrationState.InProgress →
      s.migState.getD 0 ≠ migration_state_to_u32 MigrationState.RollbackRequired →
      s.version = some cv → cv ≠ v →
      (ensure_compatible s v).1 = .error .VersionMismatch) ∧
    (∀ s v, s.migState.getD 0 ≠ migration_state_to_u32 MigrationState.InProgress →
      s.migState.getD 0 ≠ migration_state_to_u32 MigrationState.RollbackRequired →
      s.version = some v → ensure_compatible s v = (.ok (), s)) := by
  refine ⟨ensure_snd, ?_, ?_, ?_, ?_, ?_⟩
  · intro s v h
    simp [ensure_compatible, h]
  · intro s v h
    simp [ensure_compatible, h, migration_state_to_u32]
  · intro s v h1 h2 hv
    simp [ensure_compatible, current_version, hv, h1, h2]
  · intro s v cv h1 h2 hv hne
    simp [ensure_compatible, current_version, hv, h1, h2, hne]
  · intro s v h1 h2 hv
    simp [ensure_compatible, current_version, hv, h1, h2]

/-- Witness for C3: a steady state passes the gate unchanged, an InProgress
state is rejected whatever the version is. -/
theorem ensure_compatible_spec_witness :
    ensure_compatible ⟨some 4, some [], some 0, some 9⟩ 4 =
      (Except.ok (), ⟨some 4, some [], some 0, some 9⟩) ∧
    (ensure_compatible ⟨some 4, some [], some 1, some 9⟩ 4).1 =
      Except.error VersioningError.MigrationInProgress :=
  ⟨ensure_compatible_spec.2.2.2.2.2 ⟨some 4, some [], some 0, some 9⟩ 4
      (by decide) (by decide) rfl,
   ensure_compatible_spec.2.1 ⟨some 4, some [], some 1, some 9⟩ 4 rfl⟩

/-- Claim C4: every migrate with to_version ≤ from_version fails with
InvalidVersionNumber and writes nothing; every successful migrate moves the
stored version to to_version with to_version greater than from_version; and
over every operation sequence a positive stored version stays positive and
never decreases. -/
theorem version_monotone :
    (∀ s now f t m hook, t ≤ f →
      migrate s now f t m hook = (.error .InvalidVersionNumber, s)) ∧
    (∀ s now f t m hook s', migrate s now f t m hook = (.ok (), s') →
      f < t ∧ s'.version = some t) ∧
    (∀ s ops v, s.version = some v → 0 < v →
      ∃ w, (List.foldl applyOp s ops).version = some w ∧ v ≤ w ∧ 0 < w) := by
  refine ⟨migrate_not_greater, ?_, ?_⟩
  · intro s now f t m hook s' h
    obtain ⟨h1, -, h3⟩ := migrate_ok_inv s now f t m hook s' h
    exact ⟨h1, h3⟩
  · intro s ops v hv hpos
    obtain ⟨w, hw, hvw⟩ := foldl_version_mono ops s v hv
    exact ⟨w, hw, hvw, lt_of_lt_of_le hpos hvw⟩

/-- Witness for C4: a same-version upgrade attempt fails, a successful 1→2
upgrade lands at version 2, and a one-step sequence keeps the version positive. -/
theorem version_monotone_witness :
    migrate ⟨some 2, some [], some 0, some 0⟩ 0 2 2 0 (fun _ => Except.ok ()) =
      (Except.error VersioningError.InvalidVersionNumber, ⟨some 2, some [], some 0, some 0⟩) ∧
    (1 < 2 ∧
      (⟨some 2, some [mkTransition 1 2 0 0], some 2, some 0⟩ : Store).version = some 2) ∧
    (∃ w, (List.foldl applyOp ⟨some 1, some [], some 0, some 0⟩
        [Op.opMigrate 0 1 2 0 (fun _ => Except.ok ())]).version = some w ∧ 1 ≤ w ∧ 0 < w) :=
  ⟨version_monotone.1 ⟨some 2, some [], some 0, some 0⟩ 0 2 2 0
      (fun _ => Except.ok ()) (by decide),
   version_monotone.2.1 ⟨some 1, some [], some 0, some 0⟩ 0 1 2 0
      (fun _ => Except.ok ())
      ⟨some 2, some [mkTransition 1 2 0 0], some 2, some 0⟩ rfl,
   version_monotone.2.2 ⟨some 1, some [], some 0, some 0⟩
      [Op.opMigrate 0 1 2 0 (fun _ => Except.ok ())] 1 rfl (by decide)⟩

set_option maxRecDepth 100000 in
/-- Claim C5: the history never exceeds 100 entries over any operation
sequence; each successful migrate prepends exactly one entry, first evicting
tail entries down to 99 when the cap is reached; and after the concrete
101-upgrade scenario the history holds exactly the 100 most recent
transitions, with 1→2 evicted. -/
theorem history_bounded :
    (∀ s ops, HistBound s → HistBound (List.foldl applyOp s ops)) ∧
    (∀ s now f t m hook h0, f < t → s.version = some f →
      s.migState.getD 0 ≠ migration_state_to_u32 MigrationState.InProgress →
      hook { s with migState := some (migration_state_to_u32 MigrationState.InProgress) } =
        .ok () →
      s.history = some h0 →
      (migrate s now f t m hook).2.history =
        some ({ from_version := f, to_version := t, migrated_by := m,
                migration_timestamp := now, success := true,
                message := "Migration successful" } ::
          (if MAX_VERSION_HISTORY ≤ h0.length then h0.take (MAX_VERSION_HISTORY - 1)
           else h0))) ∧
    (chainStore.history = some chainHistory ∧
     chainHistory.length = 100 ∧
     chainHistory.head? = some (mkTransition 101 102 0 0) ∧
     mkTransition 1 2 0 0 ∉ chainHistory) := by
  refine ⟨fun s ops hb => foldl_hist_bound ops s hb, ?_, by decide, by decide, by decide,
    by decide⟩
  intro s now f t m hook h0 hft hv hms hh hhist
  rw [migrate_ok_full s now f t m hook h0 hft hv hms hh hhist]

/-- Witness for C5: a successful 1→2 upgrade on an empty history prepends
exactly its own transition entry. -/
theorem history_bounded_witness :
    (migrate ⟨some 1, some [], some 0, some 0⟩ 3 1 2 9 (fun _ => Except.ok ())).2.history =
      some [{ from_version := 1, to_version := 2, migrated_by := 9,
              migration_timestamp := 3, success := true, message := "Migration successful" }] := by
  have h := history_bounded.2.1 ⟨some 1, some [], some 0, some 0⟩ 3 1 2 9
    (fun _ => Except.ok ()) [] (by decide) rfl (by decide) rfl rfl
  simpa using h

/-- Claim C6: a migrate whose from_version differs from the stored version
fails with VersionMismatch and writes nothing; in particular a second
migrate(1, 2, …) after a successful migrate(1, 2, …) fails with
VersionMismatch because the stored version is then 2. -/
theorem migrate_stale_spec :
    (∀ s now f t m hook cv, f < t → s.version = some cv → cv ≠ f →
      migrate s now f t m hook = (.error .VersionMismatch, s)) ∧
    (∀ s now now' m m' hook hook' s', migrate s now 1 2 m hook = (.ok (), s') →
      (migrate s' now' 1 2 m' hook').1 = .error .VersionMismatch) := by
  refine ⟨?_, ?_⟩
  · intro s now f t m hook cv hft hv hne
    exact migrate_mismatch s now f t m hook cv hft hv hne
  · intro s now now' m m' hook hook' s' hok
    obtain ⟨-, -, hv'⟩ := migrate_ok_inv s now 1 2 m hook s' hok
    rw [migrate_mismatch s' now' 1 2 m' hook' 2 (by decide) hv' (by decide)]

/-- Witness for C6: the concrete replay of migrate(1,2) after it already
succeeded is rejected. -/
theorem migrate_stale_spec_witness :
    (migrate ⟨some 2, some [mkTransition 1 2 0 0], some 2, some 0⟩ 0 1 2 0
        (fun _ => Except.ok ())).1 =
      Except.error VersioningError.VersionMismatch :=
  migrate_stale_spec.2 ⟨some 1, some [], some 0, some 0⟩ 0 0 0 0
    (fun _ => Except.ok ()) (fun _ => Except.ok ())
    ⟨some 2, some [mkTransition 1 2 0 0], some 2, some 0⟩ rfl

/-- Claim C7: initialization fails with NotInitialized when a version record
already exists, with InvalidVersionNumber on a zero initial version, and
otherwise persists the version, an empty history, migration state None and the
ledger timestamp, after which current_version and version_history read back
the stored values. -/
theorem init_contract_spec :
    (∀ s now iv v, s.version = some v →
      initContract s now iv = (.error .NotInitialized, s)) ∧
    (∀ s now, s.version = none →
      initContract s now 0 = (.error .InvalidVersionNumber, s)) ∧
    (∀ s now iv, s.version = none → iv ≠ 0 →
      initContract s now iv =
        (.ok (),
          { s with version := some iv, history := some [],
                   migState := some (migration_state_to_u32 MigrationState.None),
                   lastMigTime := some now }) ∧
      current_version (initContract s now iv).2 = .ok iv ∧
      version_history (initContract s now iv).2 = .ok []) := by
  refine ⟨?_, ?_, ?_⟩
  · intro s now iv v hv
    have hs : s.version.isSome = true := by rw [hv]; rfl
    simp [initContract, hs]
  · intro s now hv
    simp [initContract, hv]
  · intro s now iv hv hiv
    have heq : initContract s now iv =
        (.ok (),
          { s with version := some iv, history := some [],
                   migState := some (migration_state_to_u32 MigrationState.None),
                   lastMigTime := some now }) := by
      simp [initContract, hv, hiv]
    refine ⟨heq, ?_, ?_⟩ <;> rw [heq] <;> rfl

/-- Witness for C7: a fresh initialization at version 1 and a rejected
re-initialization. -/
theorem init_contract_spec_witness :
    initContract ⟨none, none, none, none⟩ 7 1 =
      (Except.ok (), ⟨some 1, some [], some 0, some 7⟩) ∧
    initContract ⟨some 1, some [], some 0, some 7⟩ 7 2 =
      (Except.error VersioningError.NotInitialized, ⟨some 1, some [], some 0, some 7⟩) :=
  ⟨(init_contract_spec.2.2 ⟨none, none, none, none⟩ 7 1 rfl (by decide)).1,
   init_contract_spec.1 ⟨some 1, some [], some 0, some 7⟩ 7 2 1 rfl⟩

/-- Claim C8: reset_migration_state writes migration state None and nothing
else — version, history and last-migration time are untouched — so after a
RollbackRequired freeze, reset followed by ensure_compatible at the stored
version succeeds. -/
theorem reset_spec (s : Store) (admin : Nat) :
    reset_migration_state s admin =
      (.ok (), { s with migState := some (migration_state_to_u32 MigrationState.None) }) ∧
    (reset_migration_state s admin).2.version = s.version ∧
    (reset_migration_state s admin).2.history = s.history ∧
    (reset_migration_state s admin).2.lastMigTime = s.lastMigTime ∧
    (∀ v, s.migState = some (migration_state_to_u32 MigrationState.RollbackRequired) →
      s.version = some v →
      ensure_compatible (reset_migration_state s admin).2 v =
        (.ok (), (reset_migration_state s admin).2)) := by
  refine ⟨rfl, rfl, rfl, rfl, ?_⟩
  intro v hms hv
  simp [reset_migration_state, ensure_compatible, current_version,
    migration_state_to_u32, hv]

/-- Witness for C8: resetting a concrete RollbackRequired state unfreezes the
compatibility gate at the stored version. -/
theorem reset_spec_witness :
    reset_migration_state ⟨some 1, some [], some 3, some 0⟩ 5 =
      (Except.ok (), ⟨some 1, some [], some 0, some 0⟩) ∧
    ensure_compatible (reset_migration_state ⟨some 1, some [], some 3, some 0⟩ 5).2 1 =
      (Except.ok (), (reset_migration_state ⟨some 1, some [], some 3, some 0⟩ 5).2) :=
  ⟨(reset_spec ⟨some 1, some [], some 3, some 0⟩ 5).1,
   (reset_spec ⟨some 1, some [], some 3, some 0⟩ 5).2.2.2.2 1 rfl rfl⟩

/-- Claim C9: the migration-state/integer conversions round-trip on every
variant with codes None=0, InProgress=1, Complete=2, RollbackRequired=3, and
every integer outside 0..3 is rejected with InvalidVersionNumber. -/
theorem migration_state_codes :
    (∀ st : MigrationState,
      u32_to_migration_state (migration_state_to_u32 st) = .ok st) ∧
    migration_state_to_u32 MigrationState.None = 0 ∧
    migration_state_to_u32 MigrationState.InProgress = 1 ∧
    migration_state_to_u32 MigrationState.Complete = 2 ∧
    migration_state_to_u32 MigrationState.RollbackRequired = 3 ∧
    (∀ value : Nat, 3 < value →
      u32_to_migration_state value = .error .InvalidVersionNumber) := by
  refine ⟨?_, rfl, rfl, rfl, rfl, ?_⟩
  · intro st
    cases st <;> rfl
  · intro value hv
    rcases value with _ | _ | _ | _ | n
    · omega
    · omega
    · omega
    · omega
    · rfl

/-- Witness for C9: the out-of-range code 7 is rejected. -/
theorem migration_state_codes_witness :
    u32_to_migration_state 7 = Except.error VersioningError.InvalidVersionNumber :=
  migration_state_codes.2.2.2.2.2 7 (by decide)

/-- Claim C10: whenever migrate fails one of its preconditions — non-increasing
target version, missing version record, stored version different from
from_version, or migration already InProgress — it returns the corresponding
error with the storage exactly as before the call: all three checks precede
the first write. -/
theorem migrate_precondition_atomic :
    (∀ s now f t m hook, t ≤ f →
      migrate s now f t m hook = (.error .InvalidVersionNumber, s)) ∧
    (∀ s now f t m hook, f < t → s.version = none →
      migrate s now f t m hook = (.error .NotInitialized, s)) ∧
    (∀ s now f t m hook cv, f < t → s.version = some cv → cv ≠ f →
      migrate s now f t m hook = (.error .VersionMismatch, s)) ∧
    (∀ s now f t m hook, f < t → s.version = some f →
      s.migState.getD 0 = migration_state_to_u32 MigrationState.InProgress →
      migrate s now f t m hook = (.error .MigrationInProgress, s)) :=
  ⟨migrate_not_greater, migrate_uninit, migrate_mismatch, migrate_busy⟩

/-- Witness for C10: a same-version upgrade and a migrate during an InProgress
state are both rejected without any write. -/
theorem migrate_precondition_atomic_witness :
    migrate ⟨some 3, some [], some 0, some 0⟩ 0 3 3 0 (fun _ => Except.ok ()) =
      (Except.error VersioningError.InvalidVersionNumber, ⟨some 3, some [], some 0, some 0⟩) ∧
    migrate ⟨some 1, some [], some 1, some 0⟩ 0 1 2 0 (fun _ => Except.ok ()) =
      (Except.error VersioningError.MigrationInProgress, ⟨some 1, some [], some 1, some 0⟩) :=
  ⟨migrate_precondition_atomic.1 ⟨some 3, some [], some 0, some 0⟩ 0 3 3 0
      (fun _ => Except.ok ()) (by decide),
   migrate_precondition_atomic.2.2.2 ⟨some 1, some [], some 1, some 0⟩ 0 1 2 0
      (fun _ => Except.ok ()) (by decide) rfl rfl⟩

end Versioning
